import Mathlib

/-!
# Formal model of the Webex MCP server (`main.py`)

A shallow embedding of the API client of the Webex MCP server
(`WebexAPI._make_request`) and of the tool functions that the claims under
scrutiny concern (`list_meetings`, `get_meeting_transcript`, `create_meeting`,
`update_meeting`, `delete_meeting`, `add_participants`, `remove_participants`,
`send_message`).

Modelling decisions, all at the boundary with external collaborators:

* The HTTP transport (the `httpx` client) is a parameter
  `Transport : Request → Response`.  A `Response` carries a status code, a
  reason phrase, and the body already parsed as JSON (`none` models an empty
  body; the responses of the platform are JSON or empty).
* Every operation returns, besides its result, the list of outbound requests
  it issued, in order — network effects are made explicit as a trace.
* `json.loads` is a parameter `loads : String → Option Json`; `none` models a
  parse failure (`json.JSONDecodeError`).
* Python exceptions that can flow out of the modelled code are the values of
  `PyExn`; an operation that can raise returns `Except PyExn α`.
* Python truthiness of optional string / int arguments (`if x:`) is
  `truthyStr` / `truthyInt`; `if x is not None:` is `Option.isSome`.
-/

/-- JSON values, as produced by the external JSON library. -/
inductive Json where
  | null
  | bool (b : Bool)
  | num (n : Int)
  | str (s : String)
  | arr (xs : List Json)
  | obj (kvs : List (String × Json))
deriving Repr

/-- Scalar values that may appear in a query-parameter mapping. -/
inductive Scalar where
  | s (v : String)
  | b (v : Bool)
  | i (v : Int)
deriving Repr, DecidableEq

/-- An outbound HTTP request as handed to the transport: wire method, full
URL, query parameters, JSON body (for POST/PUT), and headers. -/
structure Request where
  method : String
  url : String
  params : List (String × Scalar)
  body : Option Json
  headers : List (String × String)

/-- An HTTP response from the transport: status code, reason phrase, and the
body (already parsed as JSON; `none` models an empty body). -/
structure Response where
  status : Nat
  reason : String
  content : Option Json

/-- The transport boundary: what the HTTP client library answers to each
request. -/
def Transport : Type := Request → Response

/-- Python exception values that the modelled code can raise:
the two normalized wrappers raised by `WebexAPI._make_request`
(lines 61-66 of `main.py`), and the `TypeError` that iterating a
non-iterable JSON value in `remove_participants` would raise. -/
inductive PyExn where
  | apiRequestFailed (msg : String)
  | requestFailed (msg : String)
  | typeError (msg : String)
deriving Repr, DecidableEq

/-- Python `str(e)` on an exception: its message. -/
def PyExn.message : PyExn → String
  | .apiRequestFailed m => m
  | .requestFailed m => m
  | .typeError m => m

/-- The client handle (`WebexAPI.__init__`): credential, base URL and the
headers carried by every request. -/
structure WebexAPI where
  access_token : String
  base_url : String
  headers : List (String × String)

/-- `WebexAPI(access_token)`: base URL and bearer/content-type headers as set
in `__init__` (lines 27-33). -/
def WebexAPI.make (access_token : String) : WebexAPI :=
  { access_token := access_token
    base_url := "https://webexapis.com/v1"
    headers := [("Authorization", "Bearer " ++ access_token),
                ("Content-Type", "application/json")] }

/-- Python `str.upper()` on one character, for the ASCII alphabet the HTTP
method names draw from. -/
def pyCharUpper (c : Char) : Char :=
  if 'a' ≤ c ∧ c ≤ 'z' then Char.ofNat (c.toNat - 32) else c

/-- Python `str.upper()`, for ASCII strings such as HTTP method names. -/
def pyUpper (s : String) : String :=
  String.mk (s.data.map pyCharUpper)

/-- Python `str.lstrip(slash)`: drop all leading slashes. -/
def lstripSlashes (s : String) : String :=
  String.mk (s.data.dropWhile (fun c => c = '/'))

/-- Truthiness of an optional string argument: `if x:` is false for `None`
and for the empty string. -/
def truthyStr : Option String → Bool
  | none => false
  | some s => s ≠ ""

/-- Truthiness of an optional int argument: `if x:` is false for `None` and
for `0`. -/
def truthyInt : Option Int → Bool
  | none => false
  | some n => n ≠ 0

/-- The error-type prefix of the HTTP status error message raised by the
transport library function `raise_for_status` for a non-success status. -/
def errorTypeStr (status : Nat) : String :=
  if status < 200 then "Informational response"
  else if status < 300 then ""
  else if status < 400 then "Redirect response"
  else if status < 500 then "Client error"
  else "Server error"

/-- `str(e)` of the status error raised by the transport library function
`raise_for_status`: embeds the status code, the reason phrase and the URL. -/
def httpStatusErrorMsg (status : Nat) (reason : String) (url : String) : String :=
  errorTypeStr status ++ " \x27" ++ toString status ++ " " ++ reason ++
    "\x27 for url \x27" ++ url ++ "\x27"

/-- Success test of the transport library: status in the 2xx range
(`raise_for_status` raises for any other status). -/
def isSuccess (status : Nat) : Prop := 200 ≤ status ∧ status < 300

instance (status : Nat) : Decidable (isSuccess status) := by
  unfold isSuccess; infer_instance

/-- The full request URL (line 43): the base URL, one slash, and the
endpoint with its leading slashes stripped. -/
def mkUrl (api : WebexAPI) (endpoint : String) : String :=
  api.base_url ++ "/" ++ lstripSlashes endpoint

/-- The shared tail of `_make_request` after a request was handed to the
transport (lines 58-63): `raise_for_status` makes a non-2xx status raise a
status error, re-wrapped into `Exception("API request failed: " + str(e))`;
on success the parsed body is returned, or an empty mapping when the body is
empty.  The second component is the one-request trace. -/
def issueAndHandle (tr : Transport) (req : Request) :
    Except PyExn Json × List Request :=
  let resp := tr req
  if isSuccess resp.status then
    (Except.ok (match resp.content with
      | some j => j
      | none => Json.obj []), [req])
  else
    (Except.error (PyExn.apiRequestFailed
      ("API request failed: " ++
        httpStatusErrorMsg resp.status resp.reason req.url)), [req])

/-- `WebexAPI._make_request` (lines 35-66): dispatch on `method.upper()`;
GET attaches `params`, POST/PUT send `data` as the JSON body, DELETE passes
neither (`client.delete(url, headers=self.headers)` — note: no `params`);
any other method raises `ValueError`, re-wrapped by the generic handler into
`Exception("Request failed: " + str(e))` with no request issued. -/
def make_request (api : WebexAPI) (tr : Transport) (method endpoint : String)
    (params : List (String × Scalar)) (data : Option Json) :
    Except PyExn Json × List Request :=
  let url := mkUrl api endpoint
  if pyUpper method = "GET" then
    issueAndHandle tr { method := "GET", url := url, params := params,
                        body := none, headers := api.headers }
  else if pyUpper method = "POST" then
    issueAndHandle tr { method := "POST", url := url, params := [],
                        body := data, headers := api.headers }
  else if pyUpper method = "PUT" then
    issueAndHandle tr { method := "PUT", url := url, params := [],
                        body := data, headers := api.headers }
  else if pyUpper method = "DELETE" then
    issueAndHandle tr { method := "DELETE", url := url, params := [],
                        body := none, headers := api.headers }
  else
    (Except.error (PyExn.requestFailed
      ("Request failed: Unsupported HTTP method: " ++ method)), [])

/-- Whether `method.upper()` is one of the four methods `_make_request`
dispatches on. -/
def methodSupported (method : String) : Bool :=
  pyUpper method = "GET" || pyUpper method = "POST" ||
  pyUpper method = "PUT" || pyUpper method = "DELETE"

/-- Indentation: `n` spaces. -/
def spaces (n : Nat) : String :=
  String.mk (List.replicate n ' ')

/-- JSON string quoting used by the serialization library, for the
characters that can occur here. -/
def jsonQuote (s : String) : String :=
  "\x22" ++ String.join (s.data.map (fun c =>
    if c = '\x22' then "\\\x22"
    else if c = '\\' then "\\\\"
    else if c = '\n' then "\\n"
    else if c = '\t' then "\\t"
    else if c = '\r' then "\\r"
    else String.mk [c])) ++ "\x22"

mutual

/-- `json.dumps(v, indent=2)` at nesting depth `ind`: empty containers print
flat, non-empty ones one entry per line with two extra spaces of indent. -/
def dumpVal (ind : Nat) : Json → String
  | Json.null => "null"
  | Json.bool true => "true"
  | Json.bool false => "false"
  | Json.num n => toString n
  | Json.str s => jsonQuote s
  | Json.arr [] => "[]"
  | Json.arr (x :: xs) =>
      "[\n" ++ dumpItems (ind + 2) x xs ++ "\n" ++ spaces ind ++ "]"
  | Json.obj [] => "\x7b\x7d"
  | Json.obj ((k, v) :: kvs) =>
      "\x7b\n" ++ dumpFields (ind + 2) k v kvs ++ "\n" ++ spaces ind ++ "\x7d"
termination_by j => sizeOf j

/-- The comma-and-newline separated items of a non-empty JSON array. -/
def dumpItems (ind : Nat) (x : Json) (xs : List Json) : String :=
  match xs with
  | [] => spaces ind ++ dumpVal ind x
  | y :: ys => spaces ind ++ dumpVal ind x ++ ",\n" ++ dumpItems ind y ys
termination_by sizeOf x + sizeOf xs + 1

/-- The comma-and-newline separated fields of a non-empty JSON object. -/
def dumpFields (ind : Nat) (k : String) (v : Json)
    (kvs : List (String × Json)) : String :=
  match kvs with
  | [] => spaces ind ++ jsonQuote k ++ ": " ++ dumpVal ind v
  | (k2, v2) :: ys =>
      spaces ind ++ jsonQuote k ++ ": " ++ dumpVal ind v ++ ",\n" ++
        dumpFields ind k2 v2 ys
termination_by sizeOf v + sizeOf kvs + 1

end

/-- `json.dumps(v, indent=2)` as the tools call it. -/
def dumps (v : Json) : String := dumpVal 0 v

/-- `params[k] = v` guarded by `if c:` — conditional insertion into a
query-parameter mapping (insertion order preserved, keys unique here). -/
def condAdd (c : Bool) (k : String) (v : Scalar)
    (p : List (String × Scalar)) : List (String × Scalar) :=
  if c then p ++ [(k, v)] else p

/-- `data[k] = v` guarded by `if c:` — conditional insertion into a JSON
request body (insertion order preserved, keys unique here). -/
def condAddJ (c : Bool) (k : String) (v : Json)
    (p : List (String × Json)) : List (String × Json) :=
  if c then p ++ [(k, v)] else p

/-- Python iteration over a JSON value loaded by the JSON library:
lists iterate their elements, strings their characters, dicts their keys;
`None`, booleans and numbers are not iterable (a `TypeError`). -/
def jsonIter : Json → Option (List Json)
  | Json.arr xs => some xs
  | Json.str s => some (s.data.map (fun c => Json.str (String.mk [c])))
  | Json.obj kvs => some (kvs.map (fun kv => Json.str kv.1))
  | Json.null => none
  | Json.bool _ => none
  | Json.num _ => none

/-- Python `str()` of a JSON-loaded value, as interpolated into an f-string:
a string is itself, numbers print decimally, `True`/`False`/`None` as Python
spells them; containers are abbreviated (no claim exercises them). -/
def pyStr : Json → String
  | Json.str s => s
  | Json.num n => toString n
  | Json.bool true => "True"
  | Json.bool false => "False"
  | Json.null => "None"
  | Json.arr _ => "<list>"
  | Json.obj _ => "<dict>"

/-- Serialize a successful client result with `json.dumps(result, indent=2)`,
propagating a raised failure unchanged (the common tail of most tools). -/
def serializeResult (r : Except PyExn Json × List Request) :
    Except PyExn String × List Request :=
  match r with
  | (Except.ok j, t) => (Except.ok (dumps j), t)
  | (Except.error e, t) => (Except.error e, t)

/-- The query-parameter mapping built by `list_meetings` (lines 109-124):
string and int arguments are inserted when truthy, the bool argument
`current` when it `is not None`. -/
def listMeetingsParams (meetingType state scheduledType : Option String)
    (current : Option Bool) (from_date to_date : Option String)
    (maxv : Option Int) : List (String × Scalar) :=
  condAdd (truthyInt maxv) "max" (Scalar.i (maxv.getD 0))
    (condAdd (truthyStr to_date) "to" (Scalar.s (to_date.getD ""))
      (condAdd (truthyStr from_date) "from" (Scalar.s (from_date.getD ""))
        (condAdd current.isSome "current" (Scalar.b (current.getD false))
          (condAdd (truthyStr scheduledType) "scheduledType"
              (Scalar.s (scheduledType.getD ""))
            (condAdd (truthyStr state) "state" (Scalar.s (state.getD ""))
              (condAdd (truthyStr meetingType) "meetingType"
                  (Scalar.s (meetingType.getD "")) []))))))

/-- `list_meetings` (lines 86-127): build the query parameters, GET
`/meetings`, serialize the result. -/
def list_meetings (api : WebexAPI) (tr : Transport)
    (meetingType state scheduledType : Option String) (current : Option Bool)
    (from_date to_date : Option String) (maxv : Option Int) :
    Except PyExn String × List Request :=
  serializeResult (make_request api tr "GET" "/meetings"
    (listMeetingsParams meetingType state scheduledType current from_date
      to_date maxv) none)

/-- `get_meeting_transcript` (lines 146-165): GET
`/meetings/{id}/transcripts`; any raised failure is caught and converted to
the in-band string `"Transcript not available: " + str(e)` — this tool never
raises. -/
def get_meeting_transcript (api : WebexAPI) (tr : Transport)
    (meeting_id : String) (format : Option String) :
    String × List Request :=
  let params := condAdd (truthyStr format) "format"
    (Scalar.s (format.getD "")) []
  match make_request api tr "GET"
      ("/meetings/" ++ meeting_id ++ "/transcripts") params none with
  | (Except.ok j, t) => (dumps j, t)
  | (Except.error e, t) => ("Transcript not available: " ++ e.message, t)

/-- The JSON request body built by `create_meeting` before the invitees step
(lines 237-252): `title` always present, string arguments inserted when
truthy, bool arguments when they are not `None`. -/
def createMeetingData (title : String)
    (agenda password start end_ timezone : Option String)
    (enabledAutoRecordMeeting allowAnyUserToBeCoHost : Option Bool) :
    List (String × Json) :=
  condAddJ allowAnyUserToBeCoHost.isSome "allowAnyUserToBeCoHost"
      (Json.bool (allowAnyUserToBeCoHost.getD false))
    (condAddJ enabledAutoRecordMeeting.isSome "enabledAutoRecordMeeting"
        (Json.bool (enabledAutoRecordMeeting.getD false))
      (condAddJ (truthyStr timezone) "timezone"
          (Json.str (timezone.getD ""))
        (condAddJ (truthyStr end_) "end" (Json.str (end_.getD ""))
          (condAddJ (truthyStr start) "start" (Json.str (start.getD ""))
            (condAddJ (truthyStr password) "password"
                (Json.str (password.getD ""))
              (condAddJ (truthyStr agenda) "agenda"
                  (Json.str (agenda.getD ""))
                [("title", Json.str title)]))))))

/-- `create_meeting` (lines 210-261): build the body; when `invitees` is
truthy, parse it — a parse failure returns the in-band error string with no
network call — then POST `/meetings` and serialize the result. -/
def create_meeting (loads : String → Option Json) (api : WebexAPI)
    (tr : Transport) (title : String)
    (agenda password start end_ timezone : Option String)
    (enabledAutoRecordMeeting allowAnyUserToBeCoHost : Option Bool)
    (invitees : Option String) : Except PyExn String × List Request :=
  let data := createMeetingData title agenda password start end_ timezone
    enabledAutoRecordMeeting allowAnyUserToBeCoHost
  if truthyStr invitees then
    match loads (invitees.getD "") with
    | none => (Except.ok "Error: Invalid JSON format for invitees", [])
    | some v =>
        serializeResult (make_request api tr "POST" "/meetings" []
          (some (Json.obj (data ++ [("invitees", v)]))))
  else
    serializeResult (make_request api tr "POST" "/meetings" []
      (some (Json.obj data)))

/-- The JSON request body built by `update_meeting` (lines 286-299): each
string argument inserted when truthy. -/
def updateMeetingData (title agenda password start end_ timezone :
    Option String) : List (String × Json) :=
  condAddJ (truthyStr timezone) "timezone" (Json.str (timezone.getD ""))
    (condAddJ (truthyStr end_) "end" (Json.str (end_.getD ""))
      (condAddJ (truthyStr start) "start" (Json.str (start.getD ""))
        (condAddJ (truthyStr password) "password"
            (Json.str (password.getD ""))
          (condAddJ (truthyStr agenda) "agenda" (Json.str (agenda.getD ""))
            (condAddJ (truthyStr title) "title" (Json.str (title.getD ""))
              [])))))

/-- `update_meeting` (lines 263-302): build the body, PUT
`/meetings/{id}`, serialize the result. -/
def update_meeting (api : WebexAPI) (tr : Transport) (meeting_id : String)
    (title agenda password start end_ timezone : Option String) :
    Except PyExn String × List Request :=
  serializeResult (make_request api tr "PUT" ("/meetings/" ++ meeting_id) []
    (some (Json.obj (updateMeetingData title agenda password start end_
      timezone))))

/-- `delete_meeting` (lines 304-319): build the `sendEmail` parameter when it
is not `None`, DELETE `/meetings/{id}`, and on success return the fixed
confirmation string naming the meeting. -/
def delete_meeting (api : WebexAPI) (tr : Transport) (meeting_id : String)
    (sendEmail : Option Bool) : Except PyExn String × List Request :=
  let params := condAdd sendEmail.isSome "sendEmail"
    (Scalar.b (sendEmail.getD false)) []
  match make_request api tr "DELETE" ("/meetings/" ++ meeting_id)
      params none with
  | (Except.ok _, t) =>
      (Except.ok ("Meeting " ++ meeting_id ++ " deleted successfully"), t)
  | (Except.error e, t) => (Except.error e, t)

/-- `add_participants` (lines 321-337): parse the participants JSON — a parse
failure returns the in-band error string with no network call — then POST
`/meetings/{id}/invitees` with the parsed list as `invitees`. -/
def add_participants (loads : String → Option Json) (api : WebexAPI)
    (tr : Transport) (meeting_id participants : String) :
    Except PyExn String × List Request :=
  match loads participants with
  | none => (Except.ok "Error: Invalid JSON format for participants", [])
  | some v =>
      serializeResult (make_request api tr "POST"
        ("/meetings/" ++ meeting_id ++ "/invitees") []
        (some (Json.obj [("invitees", v)])))

/-- The loop body of `remove_participants` (lines 352-353): one DELETE per
identifier, in order; a raised failure stops the loop and propagates,
later identifiers are never attempted. -/
def removeLoop (api : WebexAPI) (tr : Transport) (meeting_id : String) :
    List Json → Except PyExn Unit × List Request
  | [] => (Except.ok (), [])
  | pid :: rest =>
      match make_request api tr "DELETE"
          ("/meetings/" ++ meeting_id ++ "/invitees/" ++ pyStr pid)
          [] none with
      | (Except.ok _, t) =>
          match removeLoop api tr meeting_id rest with
          | (r, t2) => (r, t ++ t2)
      | (Except.error e, t) => (Except.error e, t)

/-- `remove_participants` (lines 339-356): parse the identifier list — a
parse failure returns the in-band error string with no network call —
iterate it issuing one DELETE per identifier, and return the fixed success
string when every call succeeded. -/
def remove_participants (loads : String → Option Json) (api : WebexAPI)
    (tr : Transport) (meeting_id participant_ids : String) :
    Except PyExn String × List Request :=
  match loads participant_ids with
  | none => (Except.ok "Error: Invalid JSON format for participant IDs", [])
  | some v =>
      match jsonIter v with
      | none =>
          (Except.error (PyExn.typeError "object is not iterable"), [])
      | some ids =>
          match removeLoop api tr meeting_id ids with
          | (Except.ok _, t) =>
              (Except.ok "Participants removed successfully", t)
          | (Except.error e, t) => (Except.error e, t)

/-- The JSON request body built by `send_message` after its validations
(lines 486-497): each destination/content string argument inserted when
truthy. -/
def sendMessageData (roomId toPersonId toPersonEmail text markdown html :
    Option String) : List (String × Json) :=
  condAddJ (truthyStr html) "html" (Json.str (html.getD ""))
    (condAddJ (truthyStr markdown) "markdown"
        (Json.str (markdown.getD ""))
      (condAddJ (truthyStr text) "text" (Json.str (text.getD ""))
        (condAddJ (truthyStr toPersonEmail) "toPersonEmail"
            (Json.str (toPersonEmail.getD ""))
          (condAddJ (truthyStr toPersonId) "toPersonId"
              (Json.str (toPersonId.getD ""))
            (condAddJ (truthyStr roomId) "roomId"
                (Json.str (roomId.getD "")) [])))))

/-- `send_message` (lines 453-506): destination validation, then content
validation — each failure is an in-band error string with no network call —
then build the body; when `files` is truthy, parse it (a parse failure is
again an in-band error with no call); finally POST `/messages` and serialize
the result. -/
def send_message (loads : String → Option Json) (api : WebexAPI)
    (tr : Transport)
    (roomId toPersonId toPersonEmail text markdown html files :
      Option String) : Except PyExn String × List Request :=
  if !(truthyStr roomId || truthyStr toPersonId || truthyStr toPersonEmail)
  then
    (Except.ok "Error: Must specify roomId, toPersonId, or toPersonEmail", [])
  else if !(truthyStr text || truthyStr markdown || truthyStr html) then
    (Except.ok "Error: Must specify text, markdown, or html content", [])
  else
    let data := sendMessageData roomId toPersonId toPersonEmail text
      markdown html
    if truthyStr files then
      match loads (files.getD "") with
      | none => (Except.ok "Error: Invalid JSON format for files", [])
      | some v =>
          serializeResult (make_request api tr "POST" "/messages" []
            (some (Json.obj (data ++ [("files", v)]))))
    else
      serializeResult (make_request api tr "POST" "/messages" []
        (some (Json.obj data)))

/-- The DELETE request that `delete_meeting` hands to the client. -/
def deleteMeetingReq (api : WebexAPI) (meeting_id : String) : Request :=
  { method := "DELETE", url := mkUrl api ("/meetings/" ++ meeting_id),
    params := [], body := none, headers := api.headers }

/-- The DELETE request that one iteration of the `remove_participants` loop
hands to the client for the identifier `pid`. -/
def removeReq (api : WebexAPI) (meeting_id : String) (pid : Json) : Request :=
  { method := "DELETE",
    url := mkUrl api ("/meetings/" ++ meeting_id ++ "/invitees/" ++ pyStr pid),
    params := [], body := none, headers := api.headers }

/-- A concrete client handle for concrete-input instantiations. -/
def apiT : WebexAPI := WebexAPI.make "TOKEN"

/-- A stubbed transport answering every request with 200 and an empty
body. -/
def trOk : Transport :=
  fun _ => { status := 200, reason := "OK", content := none }

/-- A stubbed transport answering every request with a canned 404. -/
def tr404 : Transport :=
  fun _ => { status := 404, reason := "Not Found", content := none }

/-- A stubbed transport answering every request with 200 and a non-empty
JSON body. -/
def trBody : Transport :=
  fun _ => { status := 200, reason := "OK",
             content := some (Json.obj [("id", Json.str "42")]) }

/-- A stubbed transport that fails the DELETE for participant `p2` of
meeting `m1` with a 404 and answers everything else with 200. -/
def trFailP2 : Transport :=
  fun req =>
    if req.url = "https://webexapis.com/v1/meetings/m1/invitees/p2" then
      { status := 404, reason := "Not Found", content := none }
    else
      { status := 200, reason := "OK", content := none }

/-- A stand-in for the external JSON parser at the concrete inputs used for
instantiations: the well-formed two-element identifier list parses to its
value, and everything else — notably the malformed `"["` and the empty
string — fails to parse, exactly as the external parser does on those
inputs. -/
def loadsT : String → Option Json :=
  fun s =>
    if s = "[\x22p1\x22, \x22p2\x22]" then
      some (Json.arr [Json.str "p1", Json.str "p2"])
    else none

/-- The query-parameter mapping built by `get_meeting_details`
(lines 139-141): `current` inserted when it is not `None`. -/
def getMeetingDetailsParams (current : Option Bool) :
    List (String × Scalar) :=
  condAdd current.isSome "current" (Scalar.b (current.getD false)) []

/-- `get_meeting_details` (lines 129-144): GET `/meetings/{id}` with the
optional `current` parameter, serializing the result. -/
def get_meeting_details (api : WebexAPI) (tr : Transport)
    (meeting_id : String) (current : Option Bool) :
    Except PyExn String × List Request :=
  serializeResult (make_request api tr "GET" ("/meetings/" ++ meeting_id)
    (getMeetingDetailsParams current) none)

/-- `get_recording` (lines 167-177): GET `/recordings/{id}`; this tool has
no optional arguments and passes no parameters. -/
def get_recording (api : WebexAPI) (tr : Transport)
    (recording_id : String) : Except PyExn String × List Request :=
  serializeResult (make_request api tr "GET"
    ("/recordings/" ++ recording_id) [] none)

/-- The query-parameter mapping built by `list_recordings`
(lines 196-205): string and int arguments inserted when truthy. -/
def listRecordingsParams (meeting_id from_date to_date : Option String)
    (maxv : Option Int) : List (String × Scalar) :=
  condAdd (truthyInt maxv) "max" (Scalar.i (maxv.getD 0))
    (condAdd (truthyStr to_date) "to" (Scalar.s (to_date.getD ""))
      (condAdd (truthyStr from_date) "from"
          (Scalar.s (from_date.getD ""))
        (condAdd (truthyStr meeting_id) "meetingId"
          (Scalar.s (meeting_id.getD "")) [])))

/-- `list_recordings` (lines 179-208): build the query parameters, GET
`/recordings`, serialize the result. -/
def list_recordings (api : WebexAPI) (tr : Transport)
    (meeting_id from_date to_date : Option String) (maxv : Option Int) :
    Except PyExn String × List Request :=
  serializeResult (make_request api tr "GET" "/recordings"
    (listRecordingsParams meeting_id from_date to_date maxv) none)

/-- The query-parameter mapping built by `list_participants`
(lines 375-382): string and int arguments inserted when truthy. -/
def listParticipantsParams (joinedBefore joinedAfter : Option String)
    (maxv : Option Int) : List (String × Scalar) :=
  condAdd (truthyInt maxv) "max" (Scalar.i (maxv.getD 0))
    (condAdd (truthyStr joinedAfter) "joinedAfter"
        (Scalar.s (joinedAfter.getD ""))
      (condAdd (truthyStr joinedBefore) "joinedBefore"
        (Scalar.s (joinedBefore.getD "")) []))

/-- `list_participants` (lines 358-385): build the query parameters, GET
`/meetings/{id}/participants`, serialize the result. -/
def list_participants (api : WebexAPI) (tr : Transport)
    (meeting_id : String) (joinedBefore joinedAfter : Option String)
    (maxv : Option Int) : Except PyExn String × List Request :=
  serializeResult (make_request api tr "GET"
    ("/meetings/" ++ meeting_id ++ "/participants")
    (listParticipantsParams joinedBefore joinedAfter maxv) none)

/-- The query-parameter mapping built by `list_spaces` (lines 406-415):
string and int arguments inserted when truthy. -/
def listSpacesParams (teamId type sortBy : Option String)
    (maxv : Option Int) : List (String × Scalar) :=
  condAdd (truthyInt maxv) "max" (Scalar.i (maxv.getD 0))
    (condAdd (truthyStr sortBy) "sortBy" (Scalar.s (sortBy.getD ""))
      (condAdd (truthyStr type) "type" (Scalar.s (type.getD ""))
        (condAdd (truthyStr teamId) "teamId"
          (Scalar.s (teamId.getD "")) [])))

/-- `list_spaces` (lines 389-418): build the query parameters, GET
`/rooms`, serialize the result. -/
def list_spaces (api : WebexAPI) (tr : Transport)
    (teamId type sortBy : Option String) (maxv : Option Int) :
    Except PyExn String × List Request :=
  serializeResult (make_request api tr "GET" "/rooms"
    (listSpacesParams teamId type sortBy maxv) none)

/-- The query-parameter mapping built by `get_messages` (lines 439-448):
`roomId` is required and always first; the optional string and int
arguments are inserted when truthy. -/
def getMessagesParams (roomId : String)
    (mentionedPeople before beforeMessage : Option String)
    (maxv : Option Int) : List (String × Scalar) :=
  condAdd (truthyInt maxv) "max" (Scalar.i (maxv.getD 0))
    (condAdd (truthyStr beforeMessage) "beforeMessage"
        (Scalar.s (beforeMessage.getD ""))
      (condAdd (truthyStr before) "before" (Scalar.s (before.getD ""))
        (condAdd (truthyStr mentionedPeople) "mentionedPeople"
            (Scalar.s (mentionedPeople.getD ""))
          [("roomId", Scalar.s roomId)])))

/-- `get_messages` (lines 420-451): build the query parameters, GET
`/messages`, serialize the result. -/
def get_messages (api : WebexAPI) (tr : Transport) (roomId : String)
    (mentionedPeople before beforeMessage : Option String)
    (maxv : Option Int) : Except PyExn String × List Request :=
  serializeResult (make_request api tr "GET" "/messages"
    (getMessagesParams roomId mentionedPeople before beforeMessage maxv)
    none)

/-- The JSON request body built by `create_space` (lines 529-540):
`title` always present, string arguments inserted when truthy, bool
arguments when they are not `None`. -/
def createSpaceData (title : String)
    (teamId classificationId : Option String)
    (isLocked isPublic : Option Bool) (description : Option String) :
    List (String × Json) :=
  condAddJ (truthyStr description) "description"
      (Json.str (description.getD ""))
    (condAddJ isPublic.isSome "isPublic" (Json.bool (isPublic.getD false))
      (condAddJ isLocked.isSome "isLocked"
          (Json.bool (isLocked.getD false))
        (condAddJ (truthyStr classificationId) "classificationId"
            (Json.str (classificationId.getD ""))
          (condAddJ (truthyStr teamId) "teamId"
              (Json.str (teamId.getD ""))
            [("title", Json.str title)]))))

/-- `create_space` (lines 508-543): build the body, POST `/rooms`,
serialize the result. -/
def create_space (api : WebexAPI) (tr : Transport) (title : String)
    (teamId classificationId : Option String)
    (isLocked isPublic : Option Bool) (description : Option String) :
    Except PyExn String × List Request :=
  serializeResult (make_request api tr "POST" "/rooms" []
    (some (Json.obj (createSpaceData title teamId classificationId
      isLocked isPublic description))))

/-- The JSON request body built by `add_member_to_space` (lines 566-573):
`roomId` always present, string arguments inserted when truthy,
`isModerator` when it is not `None`. -/
def addMemberData (roomId : String) (personId personEmail : Option String)
    (isModerator : Option Bool) : List (String × Json) :=
  condAddJ isModerator.isSome "isModerator"
      (Json.bool (isModerator.getD false))
    (condAddJ (truthyStr personEmail) "personEmail"
        (Json.str (personEmail.getD ""))
      (condAddJ (truthyStr personId) "personId"
          (Json.str (personId.getD ""))
        [("roomId", Json.str roomId)]))

/-- `add_member_to_space` (lines 545-576): person validation — failure is
an in-band error string with no network call — then build the body, POST
`/memberships`, serialize the result. -/
def add_member_to_space (api : WebexAPI) (tr : Transport)
    (roomId : String) (personId personEmail : Option String)
    (isModerator : Option Bool) : Except PyExn String × List Request :=
  if !(truthyStr personId || truthyStr personEmail) then
    (Except.ok "Error: Must specify personId or personEmail", [])
  else
    serializeResult (make_request api tr "POST" "/memberships" []
      (some (Json.obj (addMemberData roomId personId personEmail
        isModerator))))

theorem pyUpper_GET : pyUpper "GET" = "GET" := rfl

theorem pyUpper_POST : pyUpper "POST" = "POST" := rfl

theorem pyUpper_PUT : pyUpper "PUT" = "PUT" := rfl

theorem pyUpper_DELETE : pyUpper "DELETE" = "DELETE" := rfl

/-- The trace of the shared request tail is always exactly the one request
issued. -/
theorem issueAndHandle_snd (tr : Transport) (req : Request) :
    (issueAndHandle tr req).2 = [req] := by
  simp only [issueAndHandle]
  split <;> rfl

/-- On a 2xx response the shared tail returns the parsed body, or an empty
mapping for an empty body. -/
theorem issueAndHandle_success (tr : Transport) (req : Request)
    (h : isSuccess (tr req).status) :
    issueAndHandle tr req =
      (Except.ok (match (tr req).content with
        | some j => j
        | none => Json.obj []), [req]) := by
  simp only [issueAndHandle]
  rw [if_pos h]

/-- On a non-2xx response the shared tail raises the normalized failure
whose message wraps the status error of the transport library. -/
theorem issueAndHandle_failure (tr : Transport) (req : Request)
    (h : ¬ isSuccess (tr req).status) :
    issueAndHandle tr req =
      (Except.error (PyExn.apiRequestFailed
        ("API request failed: " ++
          httpStatusErrorMsg (tr req).status (tr req).reason req.url)),
       [req]) := by
  simp only [issueAndHandle]
  rw [if_neg h]

/-- The result of the shared request tail is never the unsupported-method
failure. -/
theorem issueAndHandle_ne_requestFailed (tr : Transport) (req : Request)
    (m : String) :
    (issueAndHandle tr req).1 ≠ Except.error (PyExn.requestFailed m) := by
  simp only [issueAndHandle]
  split <;> simp

/-- For a supported method, `_make_request` is the shared tail applied to
some request (one outbound call). -/
theorem make_request_supported (api : WebexAPI) (tr : Transport)
    (method endpoint : String) (params : List (String × Scalar))
    (data : Option Json) (hm : methodSupported method = true) :
    ∃ r, make_request api tr method endpoint params data =
      issueAndHandle tr r := by
  simp only [methodSupported, Bool.or_eq_true, decide_eq_true_eq] at hm
  unfold make_request
  split_ifs with h1 h2 h3 h4
  · exact ⟨_, rfl⟩
  · exact ⟨_, rfl⟩
  · exact ⟨_, rfl⟩
  · exact ⟨_, rfl⟩
  · exfalso; tauto

/-- The wrapped status-error message embeds the status code and the reason
phrase, in this order, as a contiguous substring. -/
theorem msg_embeds_status_reason (s : Nat) (reason url : String) :
    ∃ pre post, "API request failed: " ++ httpStatusErrorMsg s reason url =
      pre ++ (toString s ++ " " ++ reason) ++ post := by
  refine ⟨"API request failed: " ++ errorTypeStr s ++ " \x27",
    "\x27 for url \x27" ++ url ++ "\x27", ?_⟩
  unfold httpStatusErrorMsg
  apply congrArg String.mk
  simp [String.data_append]

/-- A string begins with `p` (there is a completion `rest`) exactly when the
character list of `p` is a prefix of its character list. -/
theorem beginsWith_iff (p s : String) :
    p.data.isPrefixOf s.data = true ↔ ∃ rest, s = p ++ rest := by
  rw [ List.isPrefixOf_iff_prefix]
  rcases p with ⟨pd⟩
  rcases s with ⟨sd⟩
  constructor
  · rintro ⟨t, ht⟩
    exact ⟨String.mk t, congrArg String.mk ht.symm⟩
  · rintro ⟨⟨rd⟩, hr⟩
    refine ⟨rd, ?_⟩
    have h2 := congrArg String.data hr
    simp only [String.data_append] at h2
    exact h2.symm

/-- C1: the claim fails on the code.  A DELETE issued through
`_make_request` with a non-empty `query_params` mapping does not carry those
parameters: the DELETE branch calls the transport without its `params`
argument, so `delete_meeting` with `sendEmail=True` — which dutifully builds
the `sendEmail` entry and passes it down — puts an empty query mapping on
the wire. -/
theorem C1_delete_drops_query_params :
    (make_request apiT trOk "DELETE" "/meetings/abc123"
      [("sendEmail", Scalar.b true)] none).2 =
      [{ method := "DELETE",
         url := "https://webexapis.com/v1/meetings/abc123",
         params := [], body := none, headers := apiT.headers }]
    ∧ (delete_meeting apiT trOk "abc123" (some true)).2.map Request.params =
        [[]] :=
  ⟨rfl, rfl⟩

/-- C2: a call over a supported method whose HTTP response has a 4xx/5xx
status fails with the normalized HTTP failure — no data is returned — and
the failure message embeds the underlying status and reason. -/
theorem C2_http_error_failure (api : WebexAPI) (tr : Transport)
    (method endpoint : String) (params : List (String × Scalar))
    (data : Option Json) (req : Request)
    (hm : methodSupported method = true)
    (hsnd : (make_request api tr method endpoint params data).2 = [req])
    (hst : 400 ≤ (tr req).status) :
    (make_request api tr method endpoint params data).1 =
      Except.error (PyExn.apiRequestFailed ("API request failed: " ++
        httpStatusErrorMsg (tr req).status (tr req).reason req.url))
    ∧ ∃ pre post, "API request failed: " ++
        httpStatusErrorMsg (tr req).status (tr req).reason req.url =
        pre ++ (toString (tr req).status ++ " " ++ (tr req).reason) ++ post := by
  obtain ⟨r, hr⟩ :=
    make_request_supported api tr method endpoint params data hm
  rw [hr, issueAndHandle_snd] at hsnd
  have hreq : r = req := by simpa using hsnd
  rw [hreq] at hr
  have hns : ¬ isSuccess (tr req).status := by
    unfold isSuccess; omega
  rw [hr, issueAndHandle_failure tr req hns]
  exact ⟨rfl, msg_embeds_status_reason _ _ _⟩

/-- C2 at a concrete input: a stubbed transport returning a canned 404 makes
a GET fail with the normalized failure embedding `404 Not Found`. -/
theorem C2_http_error_failure_witness :
    (make_request apiT tr404 "GET" "/meetings" [] none).1 =
      Except.error (PyExn.apiRequestFailed
        "API request failed: Client error \x27404 Not Found\x27 for url \x27https://webexapis.com/v1/meetings\x27") :=
  (C2_http_error_failure apiT tr404 "GET" "/meetings" [] none
    { method := "GET", url := "https://webexapis.com/v1/meetings",
      params := [], body := none, headers := apiT.headers }
    rfl rfl (by decide)).1

/-- C3: a method outside GET/POST/PUT/DELETE (upper-cased first) fails with
the unsupported-method error and zero outbound requests; for a supported
method that failure is unreachable. -/
theorem C3_unsupported_method (api : WebexAPI) (tr : Transport)
    (method endpoint : String) (params : List (String × Scalar))
    (data : Option Json) :
    (methodSupported method = false →
      make_request api tr method endpoint params data =
        (Except.error (PyExn.requestFailed
          ("Request failed: Unsupported HTTP method: " ++ method)), []))
    ∧ (methodSupported method = true →
      (make_request api tr method endpoint params data).1 ≠
        Except.error (PyExn.requestFailed
          ("Request failed: Unsupported HTTP method: " ++ method))) := by
  constructor
  · intro h
    have h1 : pyUpper method ≠ "GET" := fun hx => by
      simp [methodSupported, hx] at h
    have h2 : pyUpper method ≠ "POST" := fun hx => by
      simp [methodSupported, hx] at h
    have h3 : pyUpper method ≠ "PUT" := fun hx => by
      simp [methodSupported, hx] at h
    have h4 : pyUpper method ≠ "DELETE" := fun hx => by
      simp [methodSupported, hx] at h
    unfold make_request
    rw [if_neg h1, if_neg h2, if_neg h3, if_neg h4]
  · intro h
    obtain ⟨r, hr⟩ :=
      make_request_supported api tr method endpoint params data h
    rw [hr]
    exact issueAndHandle_ne_requestFailed tr r _

/-- C3 at concrete inputs: `PATCH` fails with the unsupported-method error
and no outbound request; lower-case `get` is supported and does not produce
that failure. -/
theorem C3_unsupported_method_witness :
    make_request apiT trOk "PATCH" "/meetings" [] none =
      (Except.error (PyExn.requestFailed
        "Request failed: Unsupported HTTP method: PATCH"), [])
    ∧ (make_request apiT trOk "get" "/meetings" [] none).1 ≠
      Except.error (PyExn.requestFailed
        "Request failed: Unsupported HTTP method: get") :=
  ⟨(C3_unsupported_method apiT trOk "PATCH" "/meetings" [] none).1 rfl,
   (C3_unsupported_method apiT trOk "get" "/meetings" [] none).2 rfl⟩

/-- C4: a successful call (2xx) over a supported method returns an empty
mapping when the response body is empty — and the tool-side serialization of
that result is exactly the two-character text of an empty JSON object — and
returns the parsed JSON value when the body is non-empty. -/
theorem C4_empty_body_empty_mapping (api : WebexAPI) (tr : Transport)
    (method endpoint : String) (params : List (String × Scalar))
    (data : Option Json) (req : Request)
    (hm : methodSupported method = true)
    (hsnd : (make_request api tr method endpoint params data).2 = [req])
    (hok : isSuccess (tr req).status) :
    ((tr req).content = none →
      (make_request api tr method endpoint params data).1 =
        Except.ok (Json.obj [])
      ∧ serializeResult (make_request api tr method endpoint params data) =
        (Except.ok "\x7b\x7d", [req]))
    ∧ (∀ j, (tr req).content = some j →
      (make_request api tr method endpoint params data).1 = Except.ok j) := by
  obtain ⟨r, hr⟩ :=
    make_request_supported api tr method endpoint params data hm
  rw [hr, issueAndHandle_snd] at hsnd
  have hreq : r = req := by simpa using hsnd
  rw [hreq] at hr
  constructor
  · intro hc
    rw [hr, issueAndHandle_success tr req hok, hc]
    refine ⟨rfl, ?_⟩
    simp [serializeResult, dumps, dumpVal]
  · intro j hc
    rw [hr, issueAndHandle_success tr req hok, hc]

/-- C4 at concrete inputs: a GET answered 200 with an empty body serializes
to the empty-object text, and one answered with a non-empty JSON body
returns that parsed value. -/
theorem C4_empty_body_empty_mapping_witness :
    serializeResult (make_request apiT trOk "GET" "/meetings" [] none) =
      (Except.ok "\x7b\x7d",
       [{ method := "GET", url := "https://webexapis.com/v1/meetings",
          params := [], body := none, headers := apiT.headers }])
    ∧ (make_request apiT trBody "GET" "/meetings" [] none).1 =
      Except.ok (Json.obj [("id", Json.str "42")]) :=
  ⟨((C4_empty_body_empty_mapping apiT trOk "GET" "/meetings" [] none
      { method := "GET", url := "https://webexapis.com/v1/meetings",
        params := [], body := none, headers := apiT.headers }
      rfl rfl (by decide)).1 rfl).2,
   (C4_empty_body_empty_mapping apiT trBody "GET" "/meetings" [] none
      { method := "GET", url := "https://webexapis.com/v1/meetings",
        params := [], body := none, headers := apiT.headers }
      rfl rfl (by decide)).2 (Json.obj [("id", Json.str "42")]) rfl⟩

/-- C5, counterexample: with every destination absent, `send_message`
returns the string with the `Error: ` prefix, not the bare sentence the
claim quotes as the returned in-band error string. -/
theorem C5_error_prefix_counterexample :
    send_message loadsT apiT trOk none none none none none none none =
      (Except.ok "Error: Must specify roomId, toPersonId, or toPersonEmail",
       [])
    ∧ "Error: Must specify roomId, toPersonId, or toPersonEmail" ≠
        "Must specify roomId, toPersonId, or toPersonEmail" :=
  ⟨rfl, by decide⟩

/-- C5 as amended: with all three destinations falsy, `send_message` returns
`Error: Must specify roomId, toPersonId, or toPersonEmail` with no request
issued and nothing raised; with some destination present but all three
content fields falsy it returns
`Error: Must specify text, markdown, or html content` likewise. -/
theorem C5_send_message_validation (loads : String → Option Json)
    (api : WebexAPI) (tr : Transport)
    (roomId toPersonId toPersonEmail text markdown html files :
      Option String) :
    (truthyStr roomId = false → truthyStr toPersonId = false →
      truthyStr toPersonEmail = false →
      send_message loads api tr roomId toPersonId toPersonEmail text
        markdown html files =
        (Except.ok "Error: Must specify roomId, toPersonId, or toPersonEmail",
         []))
    ∧ ((truthyStr roomId || truthyStr toPersonId || truthyStr toPersonEmail)
        = true →
      truthyStr text = false → truthyStr markdown = false →
      truthyStr html = false →
      send_message loads api tr roomId toPersonId toPersonEmail text
        markdown html files =
        (Except.ok "Error: Must specify text, markdown, or html content",
         [])) := by
  constructor
  · intro h1 h2 h3
    simp [send_message, h1, h2, h3]
  · intro hd h1 h2 h3
    simp [send_message, hd, h1, h2, h3]

/-- C5 at concrete inputs: all-absent destinations, and a present room with
all-absent content. -/
theorem C5_send_message_validation_witness :
    send_message loadsT apiT trOk none none none none none none none =
      (Except.ok "Error: Must specify roomId, toPersonId, or toPersonEmail",
       [])
    ∧ send_message loadsT apiT trOk (some "room1") none none none none none
        none =
      (Except.ok "Error: Must specify text, markdown, or html content", []) :=
  ⟨(C5_send_message_validation loadsT apiT trOk none none none none none
      none none).1 rfl rfl rfl,
   (C5_send_message_validation loadsT apiT trOk (some "room1") none none
      none none none none).2 rfl rfl rfl rfl⟩

/-- C6, counterexample: `create_meeting` with the malformed invitees string
returns the in-band error with the `Error: ` prefix — a string that does
not begin with `Invalid JSON format for` as the claim states — and with an
empty-string invitees argument (also syntactically invalid JSON) it skips
the parse entirely and issues one network call. -/
theorem C6_error_prefix_counterexample :
    create_meeting loadsT apiT trOk "Sync" none none none none none none
      none (some "[") =
      (Except.ok "Error: Invalid JSON format for invitees", [])
    ∧ ("Invalid JSON format for".data.isPrefixOf
        "Error: Invalid JSON format for invitees".data) = false
    ∧ (¬ ∃ rest, "Error: Invalid JSON format for invitees" =
        "Invalid JSON format for" ++ rest)
    ∧ (create_meeting loadsT apiT trOk "Sync" none none none none none none
        none (some "")).2.length = 1 := by
  refine ⟨rfl, by decide, ?_, rfl⟩
  rw [← beginsWith_iff]
  decide

/-- C6 as amended: for each JSON-array-encoded string argument, a non-empty
string that fails to parse makes the tool return the in-band string
`Error: Invalid JSON format for ...` naming that argument, with zero
network calls — for `create_meeting` and `send_message` a non-empty
argument, because an empty (falsy) string skips the parse, and for
`send_message` only once its destination and content validations pass. -/
theorem C6_invalid_json_in_band (loads : String → Option Json)
    (api : WebexAPI) (tr : Transport) :
    (∀ title agenda password start end_ timezone eAR aCH s,
      truthyStr (some s) = true → loads s = none →
      create_meeting loads api tr title agenda password start end_ timezone
        eAR aCH (some s) =
        (Except.ok "Error: Invalid JSON format for invitees", []))
    ∧ (∀ meeting_id ps, loads ps = none →
      add_participants loads api tr meeting_id ps =
        (Except.ok "Error: Invalid JSON format for participants", []))
    ∧ (∀ meeting_id ps, loads ps = none →
      remove_participants loads api tr meeting_id ps =
        (Except.ok "Error: Invalid JSON format for participant IDs", []))
    ∧ (∀ roomId toPersonId toPersonEmail text markdown html s,
      (truthyStr roomId || truthyStr toPersonId || truthyStr toPersonEmail)
        = true →
      (truthyStr text || truthyStr markdown || truthyStr html) = true →
      truthyStr (some s) = true → loads s = none →
      send_message loads api tr roomId toPersonId toPersonEmail text
        markdown html (some s) =
        (Except.ok "Error: Invalid JSON format for files", [])) := by
  refine ⟨?_, ?_, ?_, ?_⟩
  · intro title agenda password start end_ timezone eAR aCH s hs hl
    simp [create_meeting, hs, hl]
  · intro meeting_id ps hl
    simp [add_participants, hl]
  · intro meeting_id ps hl
    simp [remove_participants, hl]
  · intro roomId toPersonId toPersonEmail text markdown html s hd hc hs hl
    simp [send_message, hd, hc, hs, hl]

/-- C6 at concrete inputs: the malformed string `[` fed to each of the four
JSON-array-encoded arguments. -/
theorem C6_invalid_json_in_band_witness :
    create_meeting loadsT apiT trOk "Sync" none none none none none none
      none (some "[") =
      (Except.ok "Error: Invalid JSON format for invitees", [])
    ∧ add_participants loadsT apiT trOk "m1" "[" =
      (Except.ok "Error: Invalid JSON format for participants", [])
    ∧ remove_participants loadsT apiT trOk "m1" "[" =
      (Except.ok "Error: Invalid JSON format for participant IDs", [])
    ∧ send_message loadsT apiT trOk (some "room1") none none (some "hi")
        none none (some "[") =
      (Except.ok "Error: Invalid JSON format for files", []) :=
  ⟨(C6_invalid_json_in_band loadsT apiT trOk).1 "Sync" none none none none
      none none none "[" rfl rfl,
   (C6_invalid_json_in_band loadsT apiT trOk).2.1 "m1" "[" rfl,
   (C6_invalid_json_in_band loadsT apiT trOk).2.2.1 "m1" "[" rfl,
   (C6_invalid_json_in_band loadsT apiT trOk).2.2.2 (some "room1") none none
      (some "hi") none none "[" rfl rfl rfl rfl⟩

/-- The DELETE branch of `_make_request`: the request carries no query
parameters and no body, whatever was passed down. -/
theorem make_request_DELETE (api : WebexAPI) (tr : Transport)
    (endpoint : String) (params : List (String × Scalar))
    (data : Option Json) :
    make_request api tr "DELETE" endpoint params data =
      issueAndHandle tr { method := "DELETE", url := mkUrl api endpoint,
                          params := [], body := none,
                          headers := api.headers } := by
  simp [make_request, pyUpper_DELETE]

/-- One step of the `remove_participants` loop, phrased through the shared
request tail. -/
theorem removeLoop_cons (api : WebexAPI) (tr : Transport) (mid : String)
    (pid : Json) (rest : List Json) :
    removeLoop api tr mid (pid :: rest) =
      match issueAndHandle tr (removeReq api mid pid) with
      | (Except.ok _, t) =>
        match removeLoop api tr mid rest with
        | (r, t2) => (r, t ++ t2)
      | (Except.error e, t) => (Except.error e, t) := by
  simp only [removeLoop]
  rw [make_request_DELETE]
  rfl

/-- When every DELETE of the loop is answered 2xx, the loop issues exactly
one request per identifier, in list order, and succeeds. -/
theorem removeLoop_all_success (api : WebexAPI) (tr : Transport)
    (mid : String) (ids : List Json)
    (h : ∀ pid ∈ ids, isSuccess (tr (removeReq api mid pid)).status) :
    removeLoop api tr mid ids =
      (Except.ok (), ids.map (removeReq api mid)) := by
  induction ids with
  | nil => rfl
  | cons pid rest ih =>
    rw [removeLoop_cons,
        issueAndHandle_success tr (removeReq api mid pid) (h pid (by simp)),
        ih (fun q hq => h q (by simp [hq]))]
    rfl

/-- When the DELETEs for a prefix succeed and the next one fails, the loop
has issued exactly the requests for the prefix plus the failing one — the
identifiers after the failure are never attempted, and the failure
propagates. -/
theorem removeLoop_prefix_failure (api : WebexAPI) (tr : Transport)
    (mid : String) (pre : List Json) (pid : Json) (post : List Json)
    (hpre : ∀ q ∈ pre, isSuccess (tr (removeReq api mid q)).status)
    (hfail : ¬ isSuccess (tr (removeReq api mid pid)).status) :
    ∃ e, removeLoop api tr mid (pre ++ pid :: post) =
      (Except.error e,
       pre.map (removeReq api mid) ++ [removeReq api mid pid]) := by
  induction pre with
  | nil =>
    refine ⟨PyExn.apiRequestFailed ("API request failed: " ++
      httpStatusErrorMsg (tr (removeReq api mid pid)).status
        (tr (removeReq api mid pid)).reason (removeReq api mid pid).url), ?_⟩
    rw [List.nil_append, removeLoop_cons,
        issueAndHandle_failure tr _ hfail]
    rfl
  | cons q pre ih =>
    obtain ⟨e, he⟩ := ih (fun x hx => hpre x (by simp [hx]))
    refine ⟨e, ?_⟩
    rw [List.cons_append, removeLoop_cons,
        issueAndHandle_success tr _ (hpre q (by simp)), he]
    rfl

/-- C7: with a well-formed identifier list, `remove_participants` issues
exactly one DELETE per element, in list order, to the per-participant
invitee path; if the DELETE for some element fails, the earlier DELETEs
have already been issued, the later ones are never issued, and the failure
propagates with no compensating call. -/
theorem C7_remove_participants_sequential (loads : String → Option Json)
    (api : WebexAPI) (tr : Transport) (mid ps : String) (ids : List Json)
    (hl : loads ps = some (Json.arr ids)) :
    ((∀ pid ∈ ids, isSuccess (tr (removeReq api mid pid)).status) →
      remove_participants loads api tr mid ps =
        (Except.ok "Participants removed successfully",
         ids.map (removeReq api mid)))
    ∧ (∀ pre pid post, ids = pre ++ pid :: post →
        (∀ q ∈ pre, isSuccess (tr (removeReq api mid q)).status) →
        ¬ isSuccess (tr (removeReq api mid pid)).status →
        ∃ e, remove_participants loads api tr mid ps =
          (Except.error e,
           pre.map (removeReq api mid) ++ [removeReq api mid pid])) := by
  constructor
  · intro h
    simp only [remove_participants, hl, jsonIter]
    rw [removeLoop_all_success api tr mid ids h]
  · rintro pre pid post rfl hpre hfail
    obtain ⟨e, he⟩ :=
      removeLoop_prefix_failure api tr mid pre pid post hpre hfail
    refine ⟨e, ?_⟩
    simp only [remove_participants, hl, jsonIter]
    rw [he]

/-- C7 at concrete inputs: a two-identifier list under an all-2xx transport
issues the two DELETEs in order; under a transport failing the second
DELETE, exactly the first and the failing second request are issued. -/
theorem C7_remove_participants_sequential_witness :
    remove_participants loadsT apiT trOk "m1" "[\x22p1\x22, \x22p2\x22]" =
      (Except.ok "Participants removed successfully",
       [removeReq apiT "m1" (Json.str "p1"),
        removeReq apiT "m1" (Json.str "p2")])
    ∧ (remove_participants loadsT apiT trFailP2 "m1"
        "[\x22p1\x22, \x22p2\x22]").2 =
      [removeReq apiT "m1" (Json.str "p1"),
       removeReq apiT "m1" (Json.str "p2")] := by
  constructor
  · exact (C7_remove_participants_sequential loadsT apiT trOk "m1"
      "[\x22p1\x22, \x22p2\x22]" [Json.str "p1", Json.str "p2"] rfl).1
      (by intro pid hp
          simp only [List.mem_cons, List.not_mem_nil, or_false] at hp
          rcases hp with rfl | rfl <;> decide)
  · obtain ⟨e, he⟩ := (C7_remove_participants_sequential loadsT apiT
      trFailP2 "m1" "[\x22p1\x22, \x22p2\x22]"
      [Json.str "p1", Json.str "p2"] rfl).2
      [Json.str "p1"] (Json.str "p2") [] rfl
      (by intro q hq
          simp only [List.mem_cons, List.not_mem_nil, or_false] at hq
          rcases hq with rfl
          decide)
      (by decide)
    exact (congrArg Prod.snd he).trans rfl

/-- The GET branch of `_make_request`: the request carries the query
parameters and no body. -/
theorem make_request_GET (api : WebexAPI) (tr : Transport)
    (endpoint : String) (params : List (String × Scalar))
    (data : Option Json) :
    make_request api tr "GET" endpoint params data =
      issueAndHandle tr { method := "GET", url := mkUrl api endpoint,
                          params := params, body := none,
                          headers := api.headers } := by
  simp [make_request, pyUpper_GET]

/-- The PUT branch of `_make_request`: the request carries the JSON body
and no query parameters. -/
theorem make_request_PUT (api : WebexAPI) (tr : Transport)
    (endpoint : String) (params : List (String × Scalar))
    (data : Option Json) :
    make_request api tr "PUT" endpoint params data =
      issueAndHandle tr { method := "PUT", url := mkUrl api endpoint,
                          params := [], body := data,
                          headers := api.headers } := by
  simp [make_request, pyUpper_PUT]

/-- Serialization does not change the trace of issued requests. -/
theorem serializeResult_snd (r : Except PyExn Json × List Request) :
    (serializeResult r).2 = r.2 := by
  rcases r with ⟨res, t⟩
  cases res <;> rfl

/-- The key list after a conditional insertion into a query-parameter
mapping. -/
theorem keys_condAdd (c : Bool) (k : String) (v : Scalar)
    (p : List (String × Scalar)) :
    (condAdd c k v p).map Prod.fst =
      p.map Prod.fst ++ (if c then [k] else []) := by
  unfold condAdd
  cases c <;> simp

/-- The key list after a conditional insertion into a JSON body. -/
theorem keys_condAddJ (c : Bool) (k : String) (v : Json)
    (p : List (String × Json)) :
    (condAddJ c k v p).map Prod.fst =
      p.map Prod.fst ++ (if c then [k] else []) := by
  unfold condAddJ
  cases c <;> simp

/-- Membership in a conditionally inserted singleton key. -/
theorem mem_ite_singleton (k2 k : String) (c : Bool) :
    (k2 ∈ if c then [k] else ([] : List String)) ↔ (c = true ∧ k2 = k) := by
  cases c <;> simp

/-- C8: `delete_meeting` on meeting `abc123` with `sendEmail` unsupplied
issues exactly one DELETE to the meeting path, with no `sendEmail` (indeed
no) query parameter, and on success returns exactly the confirmation
string. -/
theorem C8_delete_meeting_confirmation (api : WebexAPI) (tr : Transport)
    (h : isSuccess (tr (deleteMeetingReq api "abc123")).status) :
    delete_meeting api tr "abc123" none =
      (Except.ok "Meeting abc123 deleted successfully",
       [deleteMeetingReq api "abc123"])
    ∧ (deleteMeetingReq api "abc123").params = [] := by
  refine ⟨?_, rfl⟩
  simp only [delete_meeting]
  rw [show make_request api tr "DELETE" ("/meetings/" ++ "abc123")
      (condAdd (none : Option Bool).isSome "sendEmail"
        (Scalar.b ((none : Option Bool).getD false)) []) none =
      issueAndHandle tr (deleteMeetingReq api "abc123") from
    make_request_DELETE api tr ("/meetings/" ++ "abc123") _ none]
  rw [issueAndHandle_success tr (deleteMeetingReq api "abc123") h]
  rfl

/-- C8 at concrete inputs: a 200 transport. -/
theorem C8_delete_meeting_confirmation_witness :
    delete_meeting apiT trOk "abc123" none =
      (Except.ok "Meeting abc123 deleted successfully",
       [deleteMeetingReq apiT "abc123"]) :=
  (C8_delete_meeting_confirmation apiT trOk (by decide)).1

/-- C9: whenever the request made by `get_meeting_transcript` raises, the
tool catches the failure and returns — as an ordinary value, never a raised
failure — the string `Transcript not available: ` followed by the message
of the failure. -/
theorem C9_transcript_degrades (api : WebexAPI) (tr : Transport)
    (mid : String) (format : Option String) (e : PyExn)
    (hf : (make_request api tr "GET" ("/meetings/" ++ mid ++ "/transcripts")
        (condAdd (truthyStr format) "format" (Scalar.s (format.getD "")) [])
        none).1 = Except.error e) :
    get_meeting_transcript api tr mid format =
      ("Transcript not available: " ++ e.message,
       (make_request api tr "GET" ("/meetings/" ++ mid ++ "/transcripts")
         (condAdd (truthyStr format) "format" (Scalar.s (format.getD "")) [])
         none).2) := by
  simp only [get_meeting_transcript]
  rcases hmk : make_request api tr "GET"
      ("/meetings/" ++ mid ++ "/transcripts")
      (condAdd (truthyStr format) "format" (Scalar.s (format.getD "")) [])
      none with ⟨res, t⟩
  rw [hmk] at hf
  cases res with
  | ok j => exact absurd hf (by simp)
  | error e2 =>
    have he : e2 = e := by simpa using hf
    subst he
    rfl

/-- C9 at a concrete input: the stubbed 404 transport. -/
theorem C9_transcript_degrades_witness :
    get_meeting_transcript apiT tr404 "m1" none =
      ("Transcript not available: API request failed: Client error \x27404 Not Found\x27 for url \x27https://webexapis.com/v1/meetings/m1/transcripts\x27",
       [{ method := "GET",
          url := "https://webexapis.com/v1/meetings/m1/transcripts",
          params := [], body := none, headers := apiT.headers }]) :=
  C9_transcript_degrades apiT tr404 "m1" none
    (PyExn.apiRequestFailed
      "API request failed: Client error \x27404 Not Found\x27 for url \x27https://webexapis.com/v1/meetings/m1/transcripts\x27")
    rfl

/-- The POST branch of `_make_request`: the request carries the JSON body
and no query parameters. -/
theorem make_request_POST (api : WebexAPI) (tr : Transport)
    (endpoint : String) (params : List (String × Scalar))
    (data : Option Json) :
    make_request api tr "POST" endpoint params data =
      issueAndHandle tr { method := "POST", url := mkUrl api endpoint,
                          params := [], body := data,
                          headers := api.headers } := by
  simp [make_request, pyUpper_POST]

/-- C10: across the whole tool catalog, a key appears in the
query-parameter mapping or JSON request body a tool passes to the client
exactly when the corresponding optional argument was supplied and truthy
(for the `is not None`-guarded booleans: supplied at all) — unsupplied and
falsy-supplied values (`0` for `max`, empty strings) are omitted, never
inserted as null.  Stated for every tool that takes an optional argument:
`list_meetings`, `update_meeting`, `get_meeting_details`,
`get_meeting_transcript`, `list_recordings`, `create_meeting` (including
the absent `invitees` key when that argument is unsupplied),
`delete_meeting`, `list_participants`, `list_spaces`, `get_messages`
(whose required `roomId` is always present), `create_space`,
`send_message` (its six body keys, the absent `files` key when that
argument is unsupplied, and the code edge the claim notes: an
all-empty-string content triple is treated as absent and triggers the
content-validation error instead of a send), and `add_member_to_space`.
The remaining tools (`get_recording`, `add_participants`,
`remove_participants`) take no optional arguments, so the property has no
instance there.  Where a tool builds its mapping through a named builder
the one outgoing request is also shown to carry exactly that mapping or
body. -/
theorem C10_unsupplied_keys_omitted (loads : String → Option Json)
    (api : WebexAPI) (tr : Transport) :
    (∀ meetingType state scheduledType current from_date to_date maxv,
      (list_meetings api tr meetingType state scheduledType current
        from_date to_date maxv).2 =
        [{ method := "GET", url := mkUrl api "/meetings",
           params := listMeetingsParams meetingType state scheduledType
             current from_date to_date maxv,
           body := none, headers := api.headers }])
    ∧ (∀ meetingType state scheduledType current from_date to_date maxv,
      (("meetingType" ∈ (listMeetingsParams meetingType state scheduledType
          current from_date to_date maxv).map Prod.fst) ↔
        truthyStr meetingType = true)
      ∧ (("state" ∈ (listMeetingsParams meetingType state scheduledType
          current from_date to_date maxv).map Prod.fst) ↔
        truthyStr state = true)
      ∧ (("scheduledType" ∈ (listMeetingsParams meetingType state
          scheduledType current from_date to_date maxv).map Prod.fst) ↔
        truthyStr scheduledType = true)
      ∧ (("current" ∈ (listMeetingsParams meetingType state scheduledType
          current from_date to_date maxv).map Prod.fst) ↔
        current.isSome = true)
      ∧ (("from" ∈ (listMeetingsParams meetingType state scheduledType
          current from_date to_date maxv).map Prod.fst) ↔
        truthyStr from_date = true)
      ∧ (("to" ∈ (listMeetingsParams meetingType state scheduledType
          current from_date to_date maxv).map Prod.fst) ↔
        truthyStr to_date = true)
      ∧ (("max" ∈ (listMeetingsParams meetingType state scheduledType
          current from_date to_date maxv).map Prod.fst) ↔
        truthyInt maxv = true))
    ∧ (∀ meeting_id title agenda password start end_ timezone,
      (update_meeting api tr meeting_id title agenda password start end_
        timezone).2 =
        [{ method := "PUT", url := mkUrl api ("/meetings/" ++ meeting_id),
           params := [],
           body := some (Json.obj (updateMeetingData title agenda password
             start end_ timezone)),
           headers := api.headers }])
    ∧ (∀ title agenda password start end_ timezone,
      (("title" ∈ (updateMeetingData title agenda password start end_
          timezone).map Prod.fst) ↔ truthyStr title = true)
      ∧ (("agenda" ∈ (updateMeetingData title agenda password start end_
          timezone).map Prod.fst) ↔ truthyStr agenda = true)
      ∧ (("password" ∈ (updateMeetingData title agenda password start end_
          timezone).map Prod.fst) ↔ truthyStr password = true)
      ∧ (("start" ∈ (updateMeetingData title agenda password start end_
          timezone).map Prod.fst) ↔ truthyStr start = true)
      ∧ (("end" ∈ (updateMeetingData title agenda password start end_
          timezone).map Prod.fst) ↔ truthyStr end_ = true)
      ∧ (("timezone" ∈ (updateMeetingData title agenda password start end_
          timezone).map Prod.fst) ↔ truthyStr timezone = true))
    ∧ (∀ meeting_id current,
      (get_meeting_details api tr meeting_id current).2 =
        [{ method := "GET", url := mkUrl api ("/meetings/" ++ meeting_id),
           params := getMeetingDetailsParams current,
           body := none, headers := api.headers }]
      ∧ (("current" ∈ (getMeetingDetailsParams current).map Prod.fst) ↔
          current.isSome = true))
    ∧ (∀ meeting_id format,
      (get_meeting_transcript api tr meeting_id format).2 =
        [{ method := "GET",
           url := mkUrl api ("/meetings/" ++ meeting_id ++ "/transcripts"),
           params := condAdd (truthyStr format) "format"
             (Scalar.s (format.getD "")) [],
           body := none, headers := api.headers }]
      ∧ (("format" ∈ (condAdd (truthyStr format) "format"
            (Scalar.s (format.getD "")) []).map Prod.fst) ↔
          truthyStr format = true))
    ∧ (∀ meeting_id from_date to_date maxv,
      (list_recordings api tr meeting_id from_date to_date maxv).2 =
        [{ method := "GET", url := mkUrl api "/recordings",
           params := listRecordingsParams meeting_id from_date to_date maxv,
           body := none, headers := api.headers }]
      ∧ (("meetingId" ∈ (listRecordingsParams meeting_id from_date to_date
          maxv).map Prod.fst) ↔ truthyStr meeting_id = true)
      ∧ (("from" ∈ (listRecordingsParams meeting_id from_date to_date
          maxv).map Prod.fst) ↔ truthyStr from_date = true)
      ∧ (("to" ∈ (listRecordingsParams meeting_id from_date to_date
          maxv).map Prod.fst) ↔ truthyStr to_date = true)
      ∧ (("max" ∈ (listRecordingsParams meeting_id from_date to_date
          maxv).map Prod.fst) ↔ truthyInt maxv = true))
    ∧ (∀ title agenda password start end_ timezone eAR aCH,
      (create_meeting loads api tr title agenda password start end_
        timezone eAR aCH none).2 =
        [{ method := "POST", url := mkUrl api "/meetings", params := [],
           body := some (Json.obj (createMeetingData title agenda password
             start end_ timezone eAR aCH)),
           headers := api.headers }]
      ∧ (("agenda" ∈ (createMeetingData title agenda password start end_
          timezone eAR aCH).map Prod.fst) ↔ truthyStr agenda = true)
      ∧ (("password" ∈ (createMeetingData title agenda password start end_
          timezone eAR aCH).map Prod.fst) ↔ truthyStr password = true)
      ∧ (("start" ∈ (createMeetingData title agenda password start end_
          timezone eAR aCH).map Prod.fst) ↔ truthyStr start = true)
      ∧ (("end" ∈ (createMeetingData title agenda password start end_
          timezone eAR aCH).map Prod.fst) ↔ truthyStr end_ = true)
      ∧ (("timezone" ∈ (createMeetingData title agenda password start end_
          timezone eAR aCH).map Prod.fst) ↔ truthyStr timezone = true)
      ∧ (("enabledAutoRecordMeeting" ∈ (createMeetingData title agenda
          password start end_ timezone eAR aCH).map Prod.fst) ↔
          eAR.isSome = true)
      ∧ (("allowAnyUserToBeCoHost" ∈ (createMeetingData title agenda
          password start end_ timezone eAR aCH).map Prod.fst) ↔
          aCH.isSome = true)
      ∧ ("invitees" ∉ (createMeetingData title agenda password start end_
          timezone eAR aCH).map Prod.fst))
    ∧ (∀ meeting_id sendEmail,
      (delete_meeting api tr meeting_id sendEmail).2 =
        [{ method := "DELETE",
           url := mkUrl api ("/meetings/" ++ meeting_id),
           params := [], body := none, headers := api.headers }]
      ∧ (("sendEmail" ∈ (condAdd sendEmail.isSome "sendEmail"
            (Scalar.b (sendEmail.getD false)) []).map Prod.fst) ↔
          sendEmail.isSome = true))
    ∧ (∀ meeting_id joinedBefore joinedAfter maxv,
      (list_participants api tr meeting_id joinedBefore joinedAfter
        maxv).2 =
        [{ method := "GET",
           url := mkUrl api ("/meetings/" ++ meeting_id ++ "/participants"),
           params := listParticipantsParams joinedBefore joinedAfter maxv,
           body := none, headers := api.headers }]
      ∧ (("joinedBefore" ∈ (listParticipantsParams joinedBefore joinedAfter
          maxv).map Prod.fst) ↔ truthyStr joinedBefore = true)
      ∧ (("joinedAfter" ∈ (listParticipantsParams joinedBefore joinedAfter
          maxv).map Prod.fst) ↔ truthyStr joinedAfter = true)
      ∧ (("max" ∈ (listParticipantsParams joinedBefore joinedAfter
          maxv).map Prod.fst) ↔ truthyInt maxv = true))
    ∧ (∀ teamId type sortBy maxv,
      (list_spaces api tr teamId type sortBy maxv).2 =
        [{ method := "GET", url := mkUrl api "/rooms",
           params := listSpacesParams teamId type sortBy maxv,
           body := none, headers := api.headers }]
      ∧ (("teamId" ∈ (listSpacesParams teamId type sortBy
          maxv).map Prod.fst) ↔ truthyStr teamId = true)
      ∧ (("type" ∈ (listSpacesParams teamId type sortBy
          maxv).map Prod.fst) ↔ truthyStr type = true)
      ∧ (("sortBy" ∈ (listSpacesParams teamId type sortBy
          maxv).map Prod.fst) ↔ truthyStr sortBy = true)
      ∧ (("max" ∈ (listSpacesParams teamId type sortBy
          maxv).map Prod.fst) ↔ truthyInt maxv = true))
    ∧ (∀ roomId mentionedPeople before beforeMessage maxv,
      (get_messages api tr roomId mentionedPeople before beforeMessage
        maxv).2 =
        [{ method := "GET", url := mkUrl api "/messages",
           params := getMessagesParams roomId mentionedPeople before
             beforeMessage maxv,
           body := none, headers := api.headers }]
      ∧ ("roomId" ∈ (getMessagesParams roomId mentionedPeople before
          beforeMessage maxv).map Prod.fst)
      ∧ (("mentionedPeople" ∈ (getMessagesParams roomId mentionedPeople
          before beforeMessage maxv).map Prod.fst) ↔
          truthyStr mentionedPeople = true)
      ∧ (("before" ∈ (getMessagesParams roomId mentionedPeople before
          beforeMessage maxv).map Prod.fst) ↔ truthyStr before = true)
      ∧ (("beforeMessage" ∈ (getMessagesParams roomId mentionedPeople
          before beforeMessage maxv).map Prod.fst) ↔
          truthyStr beforeMessage = true)
      ∧ (("max" ∈ (getMessagesParams roomId mentionedPeople before
          beforeMessage maxv).map Prod.fst) ↔ truthyInt maxv = true))
    ∧ (∀ title teamId classificationId isLocked isPublic description,
      (create_space api tr title teamId classificationId isLocked isPublic
        description).2 =
        [{ method := "POST", url := mkUrl api "/rooms", params := [],
           body := some (Json.obj (createSpaceData title teamId
             classificationId isLocked isPublic description)),
           headers := api.headers }]
      ∧ (("teamId" ∈ (createSpaceData title teamId classificationId
          isLocked isPublic description).map Prod.fst) ↔
          truthyStr teamId = true)
      ∧ (("classificationId" ∈ (createSpaceData title teamId
          classificationId isLocked isPublic description).map Prod.fst) ↔
          truthyStr classificationId = true)
      ∧ (("isLocked" ∈ (createSpaceData title teamId classificationId
          isLocked isPublic description).map Prod.fst) ↔
          isLocked.isSome = true)
      ∧ (("isPublic" ∈ (createSpaceData title teamId classificationId
          isLocked isPublic description).map Prod.fst) ↔
          isPublic.isSome = true)
      ∧ (("description" ∈ (createSpaceData title teamId classificationId
          isLocked isPublic description).map Prod.fst) ↔
          truthyStr description = true))
    ∧ (∀ roomId toPersonId toPersonEmail text markdown html,
      (("roomId" ∈ (sendMessageData roomId toPersonId toPersonEmail text
          markdown html).map Prod.fst) ↔ truthyStr roomId = true)
      ∧ (("toPersonId" ∈ (sendMessageData roomId toPersonId toPersonEmail
          text markdown html).map Prod.fst) ↔ truthyStr toPersonId = true)
      ∧ (("toPersonEmail" ∈ (sendMessageData roomId toPersonId
          toPersonEmail text markdown html).map Prod.fst) ↔
          truthyStr toPersonEmail = true)
      ∧ (("text" ∈ (sendMessageData roomId toPersonId toPersonEmail text
          markdown html).map Prod.fst) ↔ truthyStr text = true)
      ∧ (("markdown" ∈ (sendMessageData roomId toPersonId toPersonEmail
          text markdown html).map Prod.fst) ↔ truthyStr markdown = true)
      ∧ (("html" ∈ (sendMessageData roomId toPersonId toPersonEmail text
          markdown html).map Prod.fst) ↔ truthyStr html = true)
      ∧ ("files" ∉ (sendMessageData roomId toPersonId toPersonEmail text
          markdown html).map Prod.fst))
    ∧ (∀ roomId toPersonId toPersonEmail text markdown html,
      (truthyStr roomId || truthyStr toPersonId || truthyStr toPersonEmail)
        = true →
      (truthyStr text || truthyStr markdown || truthyStr html) = true →
      (send_message loads api tr roomId toPersonId toPersonEmail text
        markdown html none).2 =
        [{ method := "POST", url := mkUrl api "/messages", params := [],
           body := some (Json.obj (sendMessageData roomId toPersonId
             toPersonEmail text markdown html)),
           headers := api.headers }])
    ∧ (∀ roomId toPersonId toPersonEmail files,
      (truthyStr roomId || truthyStr toPersonId || truthyStr toPersonEmail)
        = true →
      send_message loads api tr roomId toPersonId toPersonEmail (some "")
        (some "") (some "") files =
        (Except.ok "Error: Must specify text, markdown, or html content",
         []))
    ∧ (∀ roomId personId personEmail isModerator,
      ((truthyStr personId || truthyStr personEmail) = true →
        (add_member_to_space api tr roomId personId personEmail
          isModerator).2 =
          [{ method := "POST", url := mkUrl api "/memberships",
             params := [],
             body := some (Json.obj (addMemberData roomId personId
               personEmail isModerator)),
             headers := api.headers }])
      ∧ ("roomId" ∈ (addMemberData roomId personId personEmail
          isModerator).map Prod.fst)
      ∧ (("personId" ∈ (addMemberData roomId personId personEmail
          isModerator).map Prod.fst) ↔ truthyStr personId = true)
      ∧ (("personEmail" ∈ (addMemberData roomId personId personEmail
          isModerator).map Prod.fst) ↔ truthyStr personEmail = true)
      ∧ (("isModerator" ∈ (addMemberData roomId personId personEmail
          isModerator).map Prod.fst) ↔ isModerator.isSome = true)) := by
  have h0 : truthyStr (none : Option String) = false := rfl
  refine ⟨?_, ?_, ?_, ?_, ?_, ?_, ?_, ?_, ?_, ?_, ?_, ?_, ?_, ?_, ?_, ?_,
    ?_⟩
  · intro meetingType state scheduledType current from_date to_date maxv
    simp only [list_meetings, serializeResult_snd, make_request_GET,
      issueAndHandle_snd]
  · intro meetingType state scheduledType current from_date to_date maxv
    refine ⟨?_, ?_, ?_, ?_, ?_, ?_, ?_⟩ <;>
      · simp only [listMeetingsParams, keys_condAdd, List.map_nil,
          List.nil_append, List.mem_append, mem_ite_singleton,
          List.not_mem_nil, false_or]
        simp
  · intro meeting_id title agenda password start end_ timezone
    simp only [update_meeting, serializeResult_snd, make_request_PUT,
      issueAndHandle_snd]
  · intro title agenda password start end_ timezone
    refine ⟨?_, ?_, ?_, ?_, ?_, ?_⟩ <;>
      · simp only [updateMeetingData, keys_condAddJ, List.map_nil,
          List.nil_append, List.mem_append, mem_ite_singleton,
          List.not_mem_nil, false_or]
        simp
  · intro meeting_id current
    refine ⟨?_, ?_⟩
    · simp only [get_meeting_details, serializeResult_snd,
        make_request_GET, issueAndHandle_snd]
    · simp only [getMeetingDetailsParams, keys_condAdd, List.map_nil,
        List.nil_append, List.mem_append, mem_ite_singleton,
        List.not_mem_nil, false_or]
      simp
  · intro meeting_id format
    refine ⟨?_, ?_⟩
    · simp only [get_meeting_transcript]
      rcases hmk : make_request api tr "GET"
          ("/meetings/" ++ meeting_id ++ "/transcripts")
          (condAdd (truthyStr format) "format"
            (Scalar.s (format.getD "")) []) none with ⟨res, t⟩
      have h2 := congrArg Prod.snd hmk
      rw [make_request_GET, issueAndHandle_snd] at h2
      cases res <;> simpa using h2.symm
    · simp only [keys_condAdd, List.map_nil, List.nil_append,
        List.mem_append, mem_ite_singleton, List.not_mem_nil, false_or]
      simp
  · intro meeting_id from_date to_date maxv
    refine ⟨?_, ?_, ?_, ?_, ?_⟩
    · simp only [list_recordings, serializeResult_snd, make_request_GET,
        issueAndHandle_snd]
    all_goals
      · simp only [listRecordingsParams, keys_condAdd, List.map_nil,
          List.nil_append, List.mem_append, mem_ite_singleton,
          List.not_mem_nil, false_or]
        simp
  · intro title agenda password start end_ timezone eAR aCH
    refine ⟨?_, ?_, ?_, ?_, ?_, ?_, ?_, ?_, ?_⟩
    · simp [create_meeting, h0, serializeResult_snd, make_request_POST,
        issueAndHandle_snd]
    all_goals
      · simp only [createMeetingData, keys_condAddJ, List.map_cons,
          List.map_nil, List.nil_append, List.mem_append,
          List.mem_singleton, mem_ite_singleton, List.not_mem_nil,
          false_or]
        simp
  · intro meeting_id sendEmail
    refine ⟨?_, ?_⟩
    · simp only [delete_meeting]
      rcases hmk : make_request api tr "DELETE"
          ("/meetings/" ++ meeting_id)
          (condAdd sendEmail.isSome "sendEmail"
            (Scalar.b (sendEmail.getD false)) []) none with ⟨res, t⟩
      have h2 := congrArg Prod.snd hmk
      rw [make_request_DELETE, issueAndHandle_snd] at h2
      cases res <;> simpa using h2.symm
    · simp only [keys_condAdd, List.map_nil, List.nil_append,
        List.mem_append, mem_ite_singleton, List.not_mem_nil, false_or]
      simp
  · intro meeting_id joinedBefore joinedAfter maxv
    refine ⟨?_, ?_, ?_, ?_⟩
    · simp only [list_participants, serializeResult_snd, make_request_GET,
        issueAndHandle_snd]
    all_goals
      · simp only [listParticipantsParams, keys_condAdd, List.map_nil,
          List.nil_append, List.mem_append, mem_ite_singleton,
          List.not_mem_nil, false_or]
        simp
  · intro teamId type sortBy maxv
    refine ⟨?_, ?_, ?_, ?_, ?_⟩
    · simp only [list_spaces, serializeResult_snd, make_request_GET,
        issueAndHandle_snd]
    all_goals
      · simp only [listSpacesParams, keys_condAdd, List.map_nil,
          List.nil_append, List.mem_append, mem_ite_singleton,
          List.not_mem_nil, false_or]
        simp
  · intro roomId mentionedPeople before beforeMessage maxv
    refine ⟨?_, ?_, ?_, ?_, ?_, ?_⟩
    · simp only [get_messages, serializeResult_snd, make_request_GET,
        issueAndHandle_snd]
    all_goals
      · simp only [getMessagesParams, keys_condAdd, List.map_cons,
          List.map_nil, List.nil_append, List.mem_append,
          List.mem_singleton, mem_ite_singleton, List.not_mem_nil,
          false_or]
        simp
  · intro title teamId classificationId isLocked isPublic description
    refine ⟨?_, ?_, ?_, ?_, ?_, ?_⟩
    · simp only [create_space, serializeResult_snd, make_request_POST,
        issueAndHandle_snd]
    all_goals
      · simp only [createSpaceData, keys_condAddJ, List.map_cons,
          List.map_nil, List.nil_append, List.mem_append,
          List.mem_singleton, mem_ite_singleton, List.not_mem_nil,
          false_or]
        simp
  · intro roomId toPersonId toPersonEmail text markdown html
    refine ⟨?_, ?_, ?_, ?_, ?_, ?_, ?_⟩ <;>
      · simp only [sendMessageData, keys_condAddJ, List.map_nil,
          List.nil_append, List.mem_append, mem_ite_singleton,
          List.not_mem_nil, false_or]
        simp
  · intro roomId toPersonId toPersonEmail text markdown html hd hc
    simp [send_message, hd, hc, h0, serializeResult_snd,
      make_request_POST, issueAndHandle_snd]
  · intro roomId toPersonId toPersonEmail files hd
    have he : truthyStr (some "") = false := rfl
    simp [send_message, hd, he]
  · intro roomId personId personEmail isModerator
    refine ⟨?_, ?_, ?_, ?_, ?_⟩
    · intro hv
      simp [add_member_to_space, hv, serializeResult_snd,
        make_request_POST, issueAndHandle_snd]
    all_goals
      · simp only [addMemberData, keys_condAddJ, List.map_cons,
          List.map_nil, List.nil_append, List.mem_append,
          List.mem_singleton, mem_ite_singleton, List.not_mem_nil,
          false_or]
        simp

/-- C10 at concrete inputs: every optional of `list_meetings` unsupplied
except a falsy `max = 0` — the one GET carries that builder mapping with
`max` absent — `send_message` with an all-empty-string content triple,
`send_message` with `files` unsupplied posting exactly its builder body,
and `add_member_to_space` posting exactly its builder body. -/
theorem C10_unsupplied_keys_omitted_witness :
    (list_meetings apiT trOk none none none none none none (some 0)).2 =
      [{ method := "GET", url := mkUrl apiT "/meetings",
         params := listMeetingsParams none none none none none none
           (some 0),
         body := none, headers := apiT.headers }]
    ∧ (("max" ∈ (listMeetingsParams none none none none none none
        (some 0)).map Prod.fst) ↔ truthyInt (some 0) = true)
    ∧ send_message loadsT apiT trOk (some "room1") none none (some "")
        (some "") (some "") none =
      (Except.ok "Error: Must specify text, markdown, or html content",
       [])
    ∧ (send_message loadsT apiT trOk (some "room1") none none (some "hi")
        none none none).2 =
      [{ method := "POST", url := mkUrl apiT "/messages", params := [],
         body := some (Json.obj (sendMessageData (some "room1") none none
           (some "hi") none none)),
         headers := apiT.headers }]
    ∧ (add_member_to_space apiT trOk "room1" (some "p1") none none).2 =
      [{ method := "POST", url := mkUrl apiT "/memberships", params := [],
         body := some (Json.obj (addMemberData "room1" (some "p1") none
           none)),
         headers := apiT.headers }] := by
  obtain ⟨h1, h2, h3, h4, h5, h6, h7, h8, h9, h10, h11, h12, h13, h14,
    h15, h16, h17⟩ := C10_unsupplied_keys_omitted loadsT apiT trOk
  exact ⟨h1 none none none none none none (some 0),
    (h2 none none none none none none (some 0)).2.2.2.2.2.2,
    h16 (some "room1") none none none rfl,
    h15 (some "room1") none none (some "hi") none none rfl rfl,
    (h17 "room1" (some "p1") none none).1 rfl⟩
